import Mathlib

/-!
# A verification model of the lnx per-index engine

This file gives a shallow embedding, in Lean 4, of the core data model and
operations of the lnx search engine repository:

* the immutable per-index context (`src/lnx-common/src/index/context.rs`):
  derived id, keyspace and on-disk paths, and the local store open routines;
* the process-wide index registry (`src/lnx-controller/src/indexes.rs`);
* the query construction layer (`src/engine/src/index.rs`:
  `parse_query`, `parse_fuzzy_query`) and the newer boost handling
  (`src/engine/src/index/queries.rs`: `QueryHandler::create`);
* the writer actor (`IndexWriterWorker`, `IndexWriterHandler`) with its
  bounded admission queue;
* the reader search path (`IndexReaderHandler::search` and the free
  `search` function) with the TopDocs collection step.

Machine integers are modelled as `Nat` with explicit reduction modulo
`2 ^ 32` where the source computes on `u32`.  Fallible operations return
`Except`.  External collaborators (tantivy, sled, crossbeam) are modelled
from their documented contracts, noted at each definition.
-/

namespace LnxSpec

/-- tantivy field handle (`tantivy::schema::Field`, a `u32` id). -/
abbrev Field := Nat

/-- Relevance score / boost factor (`tantivy::Score = f32`).  Every score
the claims touch is exactly representable, so we use `ℚ`. -/
abbrev Score := ℚ

/-- `tantivy::DocAddress`: a `(segment_ordinal, doc_ordinal)` pair. -/
abbrev DocAddress := Nat × Nat

/-- Filesystem path, as the list of its components (`std::path::PathBuf`). -/
abbrev FsPath := List String

/-! ## CRC32 (the `crc32fast` collaborator)

`crc32fast::hash` computes the CRC-32/ISO-HDLC checksum of a byte slice.
We model it directly on `Nat`, keeping every intermediate value below
`2 ^ 32`. -/

/-- Bitwise xor of the low `n` bits of two naturals, by structural
recursion (so that concrete values reduce in the kernel).  For `n = 32`
and arguments below `2 ^ 32` this is exactly the `u32` xor of the
source. -/
def xorBits : Nat → Nat → Nat → Nat
  | 0, _, _ => 0
  | n + 1, x, y => (if x % 2 = y % 2 then 0 else 1) + 2 * xorBits n (x / 2) (y / 2)

/-- The `u32` xor. -/
def xor32 (x y : Nat) : Nat := xorBits 32 x y

/-- The reflected CRC-32 polynomial `0xEDB88320`. -/
def crc32Poly : Nat := 0xEDB88320

/-- One bit-step of the reflected CRC-32 update. -/
def crc32Round (crc : Nat) : Nat :=
  if crc % 2 = 1 then xor32 (crc / 2) crc32Poly else crc / 2

/-- Absorb one byte into the CRC state (eight bit-steps). -/
def crc32Byte (crc b : Nat) : Nat :=
  crc32Round^[8] (xor32 crc (b % 256))

/-- `crc32fast::hash` over a list of bytes. -/
def crc32 (bytes : List Nat) : Nat :=
  xor32 (bytes.foldl crc32Byte 0xFFFFFFFF) 0xFFFFFFFF

/-- UTF-8 bytes of a string (`str::as_bytes`), encoded character by
character. -/
def strBytes (s : String) : List Nat :=
  s.data.flatMap (fun c => (String.utf8EncodeChar c).map (fun b => b.toNat))

/-! ## Index context (`lnx-common/src/index/context.rs`) -/

/-- Modelled from the spec: the constant `INDEX_KEYSPACE_PREFIX` lives in
`lnx-common/src/configuration.rs`, which is not among the provided sources;
the spec only states the keyspace is the prefixed stable hash of the name,
and no claim depends on the concrete prefix value. -/
def INDEX_KEYSPACE_PREFIX : String := "lnx_index"

/-- Modelled from the spec: `METADATA_FOLDER` constant; §6 on-disk layout
gives the folder name `meta`. -/
def METADATA_FOLDER : String := "meta"

/-- Modelled from the spec: `TANTIVY_DATA_FOLDER` constant; §6 on-disk
layout gives the folder name `data`. -/
def TANTIVY_DATA_FOLDER : String := "data"

/-- The polling mode carried by the context (opaque to the claims here). -/
inductive PollingMode where
  | continuous (intervalMs : Nat)
  | onDemand
deriving DecidableEq

/-- `IndexContext` (context.rs, lines 18-29): immutable descriptor of one
logical index.  `Schema` and `Cfg` (the storage config JSON) stay
abstract; `nodeId` models the fresh-per-process `Uuid::new_v4()`. -/
structure IndexContext (Schema Cfg : Type) where
  name : String
  schema : Schema
  polling_mode : PollingMode
  storage_config : Option Cfg
  keyspace : String
  node_id : Nat

/-- `IndexContext::new` (context.rs, lines 32-50).  The keyspace string is
computed at construction from the crc32 hash of the name, widened from
`u32` to `u64` (a pure widening, so no reduction is needed). -/
def IndexContext.new {Schema Cfg : Type} (name : String) (schema : Schema)
    (polling_mode : PollingMode) (storage_cfg : Option Cfg) (node_id : Nat) :
    IndexContext Schema Cfg :=
  { name := name
    schema := schema
    polling_mode := polling_mode
    storage_config := storage_cfg
    keyspace := INDEX_KEYSPACE_PREFIX ++ "_" ++ toString (crc32 (strBytes name))
    node_id := node_id }

/-- `IndexContext::id` (context.rs, lines 72-75): the crc32 hash of the
name, widened to `u64`. -/
def IndexContext.id {Schema Cfg : Type} (ctx : IndexContext Schema Cfg) : Nat :=
  crc32 (strBytes ctx.name)

/-- `IndexContext::root_storage_path` (context.rs, lines 92-95):
`base_path.join(id.to_string())`. -/
def IndexContext.root_storage_path {Schema Cfg : Type}
    (ctx : IndexContext Schema Cfg) (base_path : FsPath) : FsPath :=
  base_path ++ [toString ctx.id]

/-! ## Process-wide index registry (`lnx-controller/src/indexes.rs`) -/

/-- The `INDEXES: DashMap<String, IndexStore>` registry, modelled as a
finite map from names to stores. -/
def Registry (Store : Type) := String → Option Store

/-- Empty registry (the `DashMap::new` produced by `get_or_init`). -/
def Registry.empty {Store : Type} : Registry Store := fun _ => none

/-- `DashMap::insert` semantics (documented contract of the dashmap
collaborator): inserts the pair, replacing and returning any previous
value under the key. -/
def Registry.insert {Store : Type} (reg : Registry Store) (k : String)
    (v : Store) : Registry Store :=
  fun k2 => if k2 = k then some v else reg k2

/-- `indexes::new` (indexes.rs, lines 36-54).  The doc-store construction
(`ScyllaIndexStore::setup`) is fallible and external; it enters as the
`setup` argument.  On success the store is inserted into the registry
under the context name — with `DashMap::insert`, i.e. replacing any
existing entry. -/
def registryNew {Store E : Type} (reg : Registry Store) (name : String)
    (setup : Except E Store) : Except E (Registry Store) :=
  match setup with
  | .error e => .error e
  | .ok store => .ok (reg.insert name store)

/-! ## Query construction (`engine/src/index.rs`) -/

/-- `tantivy::query::Occur` — only `Should` occurs in the embedded code. -/
inductive Occur where
  | should
  | must
  | mustNot
deriving DecidableEq

/-- A leaf query produced by the fuzzy path:
`FuzzyTermQuery::new_prefix(Term::from_field_text(field, term), distance, transposition_cost_one)`.
The `pfx` flag records that the prefix variant of the constructor was
used. -/
inductive LeafQuery where
  | fuzzyTerm (field : Field) (term : String) (distance : Nat) (transpositionCostOne : Bool) (pfx : Bool)
deriving DecidableEq

/-- The backend query tree (`Box<dyn Query>`) as far as `parse_query` can
build it: a parser output (opaque handle), a boolean query over fuzzy
leaves, or a more-like-this query with its parameters. -/
inductive TQuery where
  | parsed (handle : Nat)
  | boolean (clauses : List (Occur × LeafQuery))
  | moreLikeThis (addr : DocAddress) (minDocFreq maxDocFreq minTermFreq : Nat)
      (minWordLength maxWordLength : Nat) (boostFactor : Score) (stopWords : List String)
deriving DecidableEq

/-- `QueryMode` (from `crate::structures`, visible through its use in
`parse_query`). -/
inductive QueryMode where
  | normal
  | fuzzy
  | moreLikeThis
deriving DecidableEq

/-- Errors surfaced by `parse_query`: the three explicit
`Error::msg(...)` invalid-query cases, or a parse failure propagated from
`QueryParser::parse_query` with `?`. -/
inductive QueryErr where
  | invalidQuery (msg : String)
  | parseFailed
deriving DecidableEq

/-- Split a character list at every occurrence of `sep` (keeping empty
chunks), the way `str::split` does. -/
def splitOnChar (sep : Char) : List Char → List (List Char)
  | [] => [[]]
  | c :: rest =>
      if c = sep then [] :: splitOnChar sep rest
      else
        match splitOnChar sep rest with
        | [] => [[c]]
        | t :: ts => (c :: t) :: ts

/-- `query.to_lowercase().split(" ")` (index.rs, line 354): lowercase the
query, then split it at every space character.  Lowercasing is modelled
per character (`Char.toLower`), which agrees with Rust on the inputs the
claims evaluate. -/
def rustLowerSplitSpace (query : String) : List String :=
  (splitOnChar ' ' (query.data.map Char.toLower)).map (fun cs => String.mk cs)

/-- Inner loop body of `parse_fuzzy_query` (index.rs, lines 354-369):
for one search term, push one `Should` fuzzy-prefix clause per search
field onto the accumulated `parts` vector; an empty term is skipped with
`continue`. -/
def fuzzyClausesStep (search_fields : List Field) (acc : List (Occur × LeafQuery))
    (search_term : String) : List (Occur × LeafQuery) :=
  if search_term = "" then acc
  else acc ++ search_fields.map
    (fun field => (Occur.should, LeafQuery.fuzzyTerm field search_term 1 true true))

/-- `IndexReaderHandler::parse_fuzzy_query` (index.rs, lines 351-372):
lowercase the whole query, split on the space character, and for each
resulting term and each configured search field push a
`FuzzyTermQuery::new_prefix(term, 1, true)` clause with `Occur::Should`;
wrap everything in one `BooleanQuery`. -/
def parse_fuzzy_query (search_fields : List Field) (query : String) : TQuery :=
  .boolean ((rustLowerSplitSpace query).foldl (fuzzyClausesStep search_fields) [])

/-- `IndexReaderHandler::parse_more_like_this` (index.rs, lines 374-386). -/
def parse_more_like_this (ref_document : DocAddress) : TQuery :=
  .moreLikeThis ref_document 1 10 1 2 5 1 ["for"]

/-- `IndexReaderHandler::parse_query` (index.rs, lines 321-349).  The
standard parser (`QueryParser::parse_query`) is an external collaborator
and enters as the `parser` argument; its failure is propagated by `?`. -/
def parse_query (parser : String → Except Unit Nat) (search_fields : List Field)
    (query : Option String) (ref_document : Option DocAddress) (mode : QueryMode) :
    Except QueryErr TQuery :=
  match mode, query, ref_document with
  | .normal, none, _ =>
      .error (.invalidQuery "query mode was Normal but query string is None")
  | .normal, some q, _ =>
      match parser q with
      | .ok handle => .ok (.parsed handle)
      | .error _ => .error .parseFailed
  | .fuzzy, none, _ =>
      .error (.invalidQuery "query mode was Fuzzy but query string is None")
  | .fuzzy, some q, _ =>
      .ok (parse_fuzzy_query search_fields q)
  | .moreLikeThis, _, none =>
      .error (.invalidQuery "query mode was MoreLikeThis but reference document is None")
  | .moreLikeThis, _, some ref => .ok (parse_more_like_this ref)

/-- Schema model for the old engine (`LoadedIndex.schema`): named fields
with tantivy ids and a field kind.  `FieldKind.text` stands for
`FieldType::Str`; `other` for every non-text type. -/
inductive FieldKind where
  | text
  | other
deriving DecidableEq

/-- A tantivy schema as the claims need it: an association of field names
to ids and kinds. -/
structure TSchema where
  fields : List (String × Field × FieldKind)
deriving DecidableEq

/-- `Schema::get_field` (tantivy collaborator): look a field id up by
name. -/
def TSchema.get_field (s : TSchema) (name : String) : Option Field :=
  (s.fields.find? (fun f => f.1 = name)).map (fun f => f.2.1)

/-- Kind of a field id (`Schema::get_field_entry(..).field_type()`). -/
def TSchema.kindOf (s : TSchema) (fid : Field) : Option FieldKind :=
  (s.fields.find? (fun f => f.2.1 = fid)).map (fun f => f.2.2)

/-- Search-field extraction in `IndexHandler::build_loaded` (index.rs,
lines 514-525): resolve each declared search-field name through the
schema; an unknown name is an error.  No field-type filter is applied. -/
def extractSearchFields (schema : TSchema) : List String → Except String (List Field)
  | [] => .ok []
  | name :: rest =>
      match schema.get_field name with
      | some field =>
          match extractSearchFields schema rest with
          | .ok fields => .ok (field :: fields)
          | .error e => .error e
      | none => .error ("no field exists for index " ++ name ++ " with the current schema")

/-! ## Writer actor (`engine/src/index.rs`, `WriterOp` and the worker) -/

/-- A tantivy `Term` as built by `Term::from_field_text`. -/
abbrev TTerm := Field × String

/-- Documents stay opaque; only identity matters to the claims. -/
abbrev TDoc := Nat

/-- `WriterOp` (index.rs, lines 23-42). -/
inductive WriterOp where
  | commit
  | rollback
  | addDocument (doc : TDoc)
  | deleteTerm (term : TTerm)
  | deleteAll
  | shutdown
deriving DecidableEq

/-- Outcome oracle for the underlying `IndexWriter` calls (`commit`,
`rollback`, `add_document`, `delete_all_documents`, `delete_term`): each
may fail with an error. -/
def WriterOracle := WriterOp → Except String Nat

/-- `IndexWriterWorker::handle_msg` (index.rs, lines 97-114): `__Shutdown`
returns `Ok(true)`; every other op runs against the writer, propagating
its error with `?`, and returns `Ok(false)`. -/
def handle_msg (apply : WriterOracle) (op : WriterOp) : Except String Bool :=
  match op with
  | .shutdown => .ok true
  | other =>
      match apply other with
      | .ok _ => .ok false
      | .error e => .error e

/-- `IndexWriterWorker::process_messages` (index.rs, lines 82-95) over the
messages currently sitting in the channel: handle each in order; an
`Err` is logged and the loop continues; `Ok(true)` (shutdown) returns
immediately.  The result records the operations actually handled and the
returned boolean. -/
def process_messages (apply : WriterOracle) : List WriterOp → List WriterOp × Bool
  | [] => ([], false)
  | op :: rest =>
      match handle_msg apply op with
      | .ok true => ([op], true)
      | .ok false =>
          let r := process_messages apply rest
          (op :: r.1, r.2)
      | .error _ =>
          let r := process_messages apply rest
          (op :: r.1, r.2)

/-- The messages a single wave of `process_messages` handles: everything
up to and including the first `__Shutdown`, or the whole queue when no
shutdown is present.  (Specification-side description used to state the
claim about the worker loop.) -/
def takeUntilShutdown : List WriterOp → List WriterOp
  | [] => []
  | op :: rest => if op = WriterOp.shutdown then [op] else op :: takeUntilShutdown rest

/-! ### Bounded admission queue (`IndexWriterHandler`)

`IndexWriterHandler::create` (index.rs, lines 134-162) builds the channel
with `channel::bounded(20)`; `send_op` (lines 168-188) loops on
`try_send`, and on `Full` registers a oneshot waiter and awaits it.  The
worker loop (`IndexWriterWorker::start`, lines 63-79) drains every
available message, then wakes all registered waiters.  We model the
handler, the waiter queue and the worker as a transition system. -/

/-- The capacity passed to `channel::bounded` in
`IndexWriterHandler::create` (index.rs, line 137). -/
def writerChannelCapacity : Nat := 20

/-- State of one writer handler: the operations buffered in the bounded
channel, the registered (not yet signalled) waiters, and the waiters
already signalled by the worker. -/
structure WriterSys where
  queue : List WriterOp
  waiters : List Nat
  woken : List Nat
deriving DecidableEq

/-- Initial state: empty channel, no waiters (index.rs, lines 134-143). -/
def WriterSys.init : WriterSys := ⟨[], [], []⟩

/-- Transitions of the writer admission system.

* `sendOk`: `try_send` succeeds — only possible while the channel holds
  fewer than `writerChannelCapacity` messages; the callers `send_op`
  completes.
* `sendFull`: `try_send` returns `Full` — the caller pushes a oneshot
  sender onto `writer_waiters` and suspends; the channel is unchanged.
* `retry`: a previously woken caller loops back to `try_send`; it can do
  so only after the worker signalled it.
* `drainWave`: the worker runs one iteration of its loop: `take`
  messages are received (`try_recv`) and handled, then every registered
  waiter is popped and signalled. -/
inductive WriterStep : WriterSys → WriterSys → Prop where
  | sendOk (s : WriterSys) (op : WriterOp)
      (h : s.queue.length < writerChannelCapacity) :
      WriterStep s ⟨s.queue ++ [op], s.waiters, s.woken⟩
  | sendFull (s : WriterSys) (op : WriterOp) (w : Nat)
      (h : ¬ s.queue.length < writerChannelCapacity) :
      WriterStep s ⟨s.queue, s.waiters ++ [w], s.woken⟩
  | retrySendOk (s : WriterSys) (op : WriterOp) (w : Nat)
      (hw : w ∈ s.woken) (h : s.queue.length < writerChannelCapacity) :
      WriterStep s ⟨s.queue ++ [op], s.waiters, s.woken.erase w⟩
  | retrySendFull (s : WriterSys) (op : WriterOp) (w : Nat)
      (hw : w ∈ s.woken) (h : ¬ s.queue.length < writerChannelCapacity) :
      WriterStep s ⟨s.queue, s.waiters ++ [w], s.woken.erase w⟩
  | drainWave (s : WriterSys) (take : Nat) :
      WriterStep s ⟨s.queue.drop take, [], s.woken ++ s.waiters⟩

/-- Reachability from the initial writer state. -/
inductive WriterReachable : WriterSys → Prop where
  | init : WriterReachable WriterSys.init
  | step (s s2 : WriterSys) : WriterReachable s → WriterStep s s2 → WriterReachable s2

/-! ## The search path (`engine/src/index.rs`, readers) -/

/-- A named document as returned by `Schema::to_named_doc`; its content
is opaque to the claims, so we keep a bare handle. -/
abbrev NamedDoc := Nat

/-- `QueryHit` (index.rs, lines 391-399). -/
structure QueryHit where
  ref_address : String
  doc : NamedDoc
deriving DecidableEq

/-- `QueryResults` (index.rs, lines 401-412): hits, their count, and the
elapsed wall-clock search time in seconds. -/
structure QueryResults where
  hits : List QueryHit
  count : Nat
  time_taken : Score
deriving DecidableEq

/-- Modelled from the spec: `RefAddress` lives in `engine/src/structures.rs`
(not among the provided sources); §4.2 describes it as a stable opaque
token encoding the `(segment_ordinal, doc_ordinal)` pair.  We render the
pair as `segment-doc`. -/
def refAddressString (a : DocAddress) : String :=
  toString a.1 ++ "-" ++ toString a.2

/-- Modelled from the spec: `RefAddress::try_from(String)` (structures.rs,
not among the provided sources) — parse the opaque token back into its
pair, failing on malformed input. -/
def refAddressParse (s : String) : Except String DocAddress :=
  match s.splitOn "-" with
  | [a, b] =>
      match a.toNat?, b.toNat? with
      | some x, some y => .ok (x, y)
      | _, _ => .error "invalid ref address"
  | _ => .error "invalid ref address"

/-- Insertion step for the sort used to model the `TopDocs` collector. -/
def insertByLe {α : Type} (le : α → α → Bool) (x : α) : List α → List α
  | [] => [x]
  | y :: ys => if le x y then x :: y :: ys else y :: insertByLe le x ys

/-- Insertion sort with a boolean comparator. -/
def sortByLe {α : Type} (le : α → α → Bool) : List α → List α
  | [] => []
  | x :: xs => insertByLe le x (sortByLe le xs)

/-- Collector ordering of `tantivy::collector::TopDocs` (external
collaborator): hits are returned by score descending; ties are broken by
document address (the claims below evaluate only inputs with distinct
scores, so the tie order is immaterial). -/
def topDocsLe (x y : Score × DocAddress) : Bool :=
  x.1 > y.1 ∨ (x.1 = y.1 ∧ (x.2.1 < y.2.1 ∨ (x.2.1 = y.2.1 ∧ x.2.2 ≤ y.2.2)))

/-- `TopDocs::with_limit(limit).and_offset(offset)` applied to the set of
matching `(score, address)` pairs: order by score descending, skip
`offset`, return at most `limit`. -/
def topDocsCollect (matchDocs : List (Score × DocAddress)) (limit offset : Nat) :
    List (Score × DocAddress) :=
  ((sortByLe topDocsLe matchDocs).drop offset).take limit

/-- The hit-building loop of the `search!` macro (index.rs, lines
415-428): retrieve each collected document through the searcher
(`searcher.doc(ref_address)?`, modelled by `docOf`) and wrap it in a
`QueryHit`. -/
def buildHits (docOf : DocAddress → Except String NamedDoc) :
    List (Score × DocAddress) → Except String (List QueryHit)
  | [] => .ok []
  | (_, addr) :: rest =>
      match docOf addr with
      | .error e => .error e
      | .ok doc =>
          match buildHits docOf rest with
          | .error e => .error e
          | .ok hits => .ok ({ ref_address := refAddressString addr, doc := doc } :: hits)

/-- The free function `search` (index.rs, lines 435-462).  The searcher and
the query enter jointly as `matchDocs`: the scored documents the backend
finds for the query; `docOf` is the searcher's document store; `elapsed`
is the measured wall-clock time.  The `order_by` parameter is received
and — exactly as in the source — never used: the collector is always
`TopDocs::with_limit(limit).and_offset(offset)`. -/
def search (matchDocs : List (Score × DocAddress))
    (docOf : DocAddress → Except String NamedDoc) (limit offset : Nat)
    (order_by : Option Field) (elapsed : Score) : Except String QueryResults :=
  let top_docs := topDocsCollect matchDocs limit offset
  let count := top_docs.length
  match buildHits docOf top_docs with
  | .error e => .error e
  | .ok hits => .ok { hits := hits, count := count, time_taken := elapsed }

/-- `QueryPayload` (from `crate::structures`, visible through its use in
`IndexReaderHandler::search`). -/
structure QueryPayload where
  mode : QueryMode
  query : Option String
  ref_document : Option String
  limit : Nat
  offset : Nat
  order_by : Option String

deriving instance DecidableEq for Except

/-- Error cases on which `IndexReaderHandler::search` returns `Err` before
dispatching to the thread pool. -/
inductive ReaderErr where
  | refAddress (msg : String)
  | query (e : QueryErr)
deriving DecidableEq

/-- How one call to `IndexReaderHandler::search` (index.rs, lines 272-319)
ends.  The function returns `Result<()>`; after awaiting the oneshot
carrying the inner `search` result it executes `todo!()`, so on the
success path it panics and the computed `QueryResults` (already sent
through the oneshot) is discarded. -/
inductive ReaderSearchOutcome where
  | errored (e : ReaderErr)
  | panickedTodo (discarded : Except String QueryResults)
deriving DecidableEq

/-- `IndexReaderHandler::search` (index.rs, lines 272-319): acquire a
permit (suspension, never an error while the semaphore is open), parse
the optional `ref_document`, resolve `order_by` through the schema —
silently dropping a name the schema does not know — build the query via
`parse_query`, dispatch the free `search` to the thread pool, await the
oneshot, and then hit `todo!()`. -/
def readerSearch (parser : String → Except Unit Nat) (search_fields : List Field)
    (quick_schema : TSchema) (matchDocs : List (Score × DocAddress))
    (docOf : DocAddress → Except String NamedDoc) (elapsed : Score)
    (payload : QueryPayload) : ReaderSearchOutcome :=
  let docRes : Except String (Option DocAddress) :=
    match payload.ref_document with
    | some d =>
        match refAddressParse d with
        | .ok a => .ok (some a)
        | .error e => .error e
    | none => .ok none
  match docRes with
  | .error e => .errored (.refAddress e)
  | .ok refdoc =>
      let order_by : Option Field :=
        match payload.order_by with
        | some f => quick_schema.get_field f
        | none => none
      match parse_query parser search_fields payload.query refdoc payload.mode with
      | .error e => .errored (.query e)
      | .ok _query =>
          .panickedTodo (search matchDocs docOf payload.limit payload.offset order_by elapsed)

/-! ## Local on-disk state (`lnx-common/src/index/context.rs`) -/

/-- The slice of filesystem state the open routines touch: which paths
hold a sled database, and which hold a tantivy index (with the schema it
was created with, `Nat`-coded). -/
structure FsState where
  sledDbs : List FsPath
  tantivyIndexes : List (FsPath × Nat)
deriving DecidableEq

/-- `std::fs::create_dir_all`: idempotent directory creation; it never
fails on an existing directory and does not affect the state the claims
observe. -/
def create_dir_all (fs : FsState) (_p : FsPath) : FsState := fs

/-- `sled::Config::new().create_new(true).path(p).open()` (sled
collaborator, documented contract): with `create_new(true)` the open
errors if a database already exists at the path, and otherwise creates
one. -/
def sledOpenCreateNew (fs : FsState) (p : FsPath) : Except String FsState :=
  if p ∈ fs.sledDbs then .error "sled: database already exists"
  else .ok { fs with sledDbs := p :: fs.sledDbs }

/-- `IndexContext::get_or_create_metastore` (context.rs, lines 97-107):
`create_dir_all` on `{base}/{id}/meta`, then a sled open configured with
`create_new(true)`. -/
def get_or_create_metastore {Schema Cfg : Type} (ctx : IndexContext Schema Cfg)
    (base_path : FsPath) (fs : FsState) : Except String FsState :=
  let target_path := ctx.root_storage_path base_path ++ [METADATA_FOLDER]
  let fs := create_dir_all fs target_path
  sledOpenCreateNew fs target_path

/-- `tantivy::Index::exists(dir)` for the data directory. -/
def tantivyExists (fs : FsState) (p : FsPath) : Bool :=
  (fs.tantivyIndexes.find? (fun e => e.1 = p)).isSome

/-- Schema stored in the on-disk tantivy index at a path, when present. -/
def tantivySchemaAt (fs : FsState) (p : FsPath) : Option Nat :=
  (fs.tantivyIndexes.find? (fun e => e.1 = p)).map (fun e => e.2)

/-- `IndexContext::get_or_create_index` (context.rs, lines 110-128):
`create_dir_all` on `{base}/{id}/data`; if a tantivy index exists there,
open it, else create it with the declared schema; then validate the
on-disk schema against the declared one (`tantivySchemaCode` codes the
declared schema). -/
def get_or_create_index {Schema Cfg : Type} (ctx : IndexContext Schema Cfg)
    (tantivySchemaCode : Schema → Nat) (base_path : FsPath) (fs : FsState) :
    Except String FsState :=
  let target_path := ctx.root_storage_path base_path ++ [TANTIVY_DATA_FOLDER]
  let fs := create_dir_all fs target_path
  let does_exist := tantivyExists fs target_path
  let fs :=
    if does_exist then fs
    else { fs with tantivyIndexes := (target_path, tantivySchemaCode ctx.schema) :: fs.tantivyIndexes }
  match tantivySchemaAt fs target_path with
  | none => .error "tantivy: open failed"
  | some ref_schema =>
      if ref_schema = tantivySchemaCode ctx.schema then .ok fs
      else .error "schema mismatch"

/-! ## Boost registration (`engine/src/index/queries.rs`) -/

/-- `QueryContext` (queries.rs, lines 21-44).  `boost_fields` is the
`HashMap<String, Score>`, modelled as an association list queried with
`List.lookup`. -/
structure QueryContext where
  search_fields : List String
  boost_fields : List (String × Score)
  set_conjunction_by_default : Bool
  use_fast_fuzzy : Bool
  strip_stop_words : Bool

/-- Modelled from the spec: `crate::helpers::hash` (not among the provided
sources) is the stable hash used to name shadow fields `_{hash(name)}`
(§4.4); any fixed hash satisfies the claims, so we reuse crc32. -/
def shadowFieldName (name : String) : String :=
  "_" ++ toString (crc32 (strBytes name))

/-- The three vectors `QueryHandler::create` accumulates: the fields
handed to `QueryParser::for_index`, the `(field, boost)` pairs passed to
`set_field_boost`, and the fuzzy search fields kept by
`add_field_if_valid`. -/
structure CreateAcc where
  parserFields : List Field
  parserBoosts : List (Field × Score)
  fuzzyFields : List (Field × Score)
deriving DecidableEq

/-- `add_field_if_valid` (queries.rs, lines 13-18): keep the pair only
for `FieldType::Str`. -/
def add_field_if_valid (pair : Field × Score) (acc : List (Field × Score))
    (kind : Option FieldKind) : List (Field × Score) :=
  if kind = some FieldKind.text then acc ++ [pair] else acc

/-- The per-search-field body of the loop in `QueryHandler::create`
(queries.rs, lines 62-133), returning the vectors contributed by one
field.  Mirrors the three match arms on
`(schema.get_field(name), schema.get_field(shadow))`; note that in the
`(Some, Some)` arm with fast-fuzzy disabled the source pushes the
shadow field into the fuzzy list while checking the standard fields
type, which we reproduce. -/
def createFieldStep (schema : TSchema) (correctionEnabled : Bool) (ctx : QueryContext)
    (ref_field : String) : Except String (Field × (Field × Score) × List (Field × Score)) :=
  let pre_processed_field := shadowFieldName ref_field
  match schema.get_field ref_field, schema.get_field pre_processed_field with
  | some standard, some pre_processed =>
      let boost := (ctx.boost_fields.lookup ref_field).getD 0
      if ctx.use_fast_fuzzy && correctionEnabled then
        .ok (pre_processed, (pre_processed, boost),
          add_field_if_valid (pre_processed, boost) [] (schema.kindOf pre_processed))
      else
        .ok (standard, (standard, boost),
          add_field_if_valid (pre_processed, boost) [] (schema.kindOf standard))
  | some field, none =>
      let boost := (ctx.boost_fields.lookup ref_field).getD 0
      .ok (field, (field, boost),
        add_field_if_valid (field, boost) [] (schema.kindOf field))
  | none, _ =>
      .error ("search field " ++ ref_field ++ " does not exist in the defined fields")

/-- The accumulation loop of `QueryHandler::create` over
`ctx.search_fields` (queries.rs, lines 62-133). -/
def createLoop (schema : TSchema) (correctionEnabled : Bool) (ctx : QueryContext) :
    List String → Except String CreateAcc
  | [] => .ok ⟨[], [], []⟩
  | f :: rest =>
      match createFieldStep schema correctionEnabled ctx f with
      | .error e => .error e
      | .ok (pf, pb, fz) =>
          match createLoop schema correctionEnabled ctx rest with
          | .error e => .error e
          | .ok acc => .ok ⟨pf :: acc.parserFields, pb :: acc.parserBoosts, fz ++ acc.fuzzyFields⟩

/-- `QueryHandler::create` (queries.rs, lines 53-163), up to the parser
construction: the accumulated vectors plus whether
`set_conjunction_by_default` was invoked on the parser (it is exactly
when `use_fast_fuzzy` is set). -/
def queryHandlerCreate (schema : TSchema) (correctionEnabled : Bool)
    (ctx : QueryContext) : Except String (CreateAcc × Bool) :=
  match createLoop schema correctionEnabled ctx ctx.search_fields with
  | .error e => .error e
  | .ok acc => .ok (acc, ctx.use_fast_fuzzy)

/-- The boost the constructed `QueryParser` ends up using for a field:
`set_field_boost` overrides the parser default of `1.0` (tantivy
collaborator contract); later calls override earlier ones. -/
def parserBoostOf (acc : CreateAcc) (f : Field) : Score :=
  (((acc.parserBoosts.reverse).find? (fun p => p.1 = f)).map (fun p => p.2)).getD 1

/-! ## Concrete instances used to evaluate the model

Small closed inputs on which the claim theorems below evaluate the
embedded code. -/

/-- Concrete schema for the C4 counterexample: a text field `title` and a
non-text (integer) field `count`, both declared as search fields — which
`build_loaded` accepts, since it applies no field-type filter. -/
def cexSchemaC4 : TSchema := ⟨[("title", 0, .text), ("count", 1, .other)]⟩

/-- A one-text-field schema for evaluating the reader search path. -/
def schemaEx : TSchema := ⟨[("title", 0, .text), ("popularity", 3, .other)]⟩

/-- A parser oracle that accepts every query string. -/
def parserEx : String → Except Unit Nat := fun _ => .ok 0

/-- Two matching documents: address `(0,0)` with score `1`, address
`(0,1)` with score `2`. -/
def matchDocsEx : List (Score × DocAddress) := [(1, (0, 0)), (2, (0, 1))]

/-- A document store that retrieves every address. -/
def docOfEx : DocAddress → Except String NamedDoc := fun a => .ok (a.1 * 100 + a.2)

/-- A plain `Normal`-mode search payload. -/
def payloadC1 : QueryPayload :=
  { mode := .normal, query := some "rust programming", ref_document := none
    limit := 20, offset := 0, order_by := none }

/-- A payload ordering by the fast field `popularity` of `schemaEx`. -/
def payloadC2 : QueryPayload :=
  { mode := .normal, query := some "rust programming", ref_document := none
    limit := 20, offset := 0, order_by := some "popularity" }

/-- Fast-field contents for the order-by counterexample: document `(0,0)`
holds `10`, document `(0,1)` holds `5`. -/
def fastFieldValEx : DocAddress → Nat := fun a => if a = (0, 0) then 10 else 5

/-- The query results the inner `search` computes on `matchDocsEx` with
`docOfEx` (score order: `(0,1)` before `(0,0)`). -/
def resultsEx : QueryResults :=
  { hits := [{ ref_address := "0-1", doc := 1 }, { ref_address := "0-0", doc := 0 }]
    count := 2, time_taken := 0 }

/-- An index context over a `Nat`-coded schema, for the on-disk claims. -/
def ctxC8 : IndexContext Nat Unit := IndexContext.new "books" 7 .onDemand none 0

/-- Base storage path for the on-disk claims. -/
def baseC8 : FsPath := ["base"]

/-- `{base}/{id}/meta` for `ctxC8`. -/
def metaPathC8 : FsPath := ctxC8.root_storage_path baseC8 ++ [METADATA_FOLDER]

/-- `{base}/{id}/data` for `ctxC8`. -/
def dataPathC8 : FsPath := ctxC8.root_storage_path baseC8 ++ [TANTIVY_DATA_FOLDER]

/-- Filesystem state after the first metastore open. -/
def fs1C8 : FsState := ⟨[metaPathC8], []⟩

/-- Filesystem state after the first metastore and index opens. -/
def fs2C8 : FsState := ⟨[metaPathC8], [(dataPathC8, 7)]⟩

/-- A two-text-field schema for the boost-registration claim. -/
def schemaC10 : TSchema := ⟨[("title", 0, .text), ("body", 1, .text)]⟩

/-- A query context searching `title` and `body`, boosting only `title`. -/
def ctxC10 : QueryContext :=
  { search_fields := ["title", "body"], boost_fields := [("title", 3)]
    set_conjunction_by_default := false, use_fast_fuzzy := false
    strip_stop_words := false }

/-- The vectors `QueryHandler::create` accumulates on `schemaC10` and
`ctxC10`: `body` is registered with boost `0`, not left at the parser
default. -/
def accC10 : CreateAcc := ⟨[0, 1], [(0, 3), (1, 0)], [(0, 3), (1, 0)]⟩

/-! ## Supporting lemmas -/

theorem xorBits_lt (n x y : Nat) : xorBits n x y < 2 ^ n := by
  induction n generalizing x y with
  | zero => simp [xorBits]
  | succ k ih =>
      have h := ih (x / 2) (y / 2)
      have hpow : 2 ^ (k + 1) = 2 * 2 ^ k := by ring
      unfold xorBits
      split <;> omega

theorem crc32_lt (bytes : List Nat) : crc32 bytes < 2 ^ 32 :=
  xorBits_lt 32 _ _

/-! ## Claim theorems -/

/-- C9.  For every index name, any two `IndexContext` values constructed
with that name — whatever their schema, polling mode, storage config and
node id — have the same id, the same keyspace string and the same root
storage path under a given base path; the id is the stable 32-bit crc32
hash of the name, and the keyspace is that id behind the constant
prefix. -/
theorem context_identity_depends_only_on_name (Schema Cfg : Type) (name : String)
    (s1 s2 : Schema) (p1 p2 : PollingMode) (c1 c2 : Option Cfg) (n1 n2 : Nat)
    (base : FsPath) :
    (IndexContext.new name s1 p1 c1 n1 : IndexContext Schema Cfg).id
        = (IndexContext.new name s2 p2 c2 n2).id
    ∧ (IndexContext.new name s1 p1 c1 n1 : IndexContext Schema Cfg).keyspace
        = (IndexContext.new name s2 p2 c2 n2).keyspace
    ∧ (IndexContext.new name s1 p1 c1 n1 : IndexContext Schema Cfg).root_storage_path base
        = (IndexContext.new name s2 p2 c2 n2).root_storage_path base
    ∧ (IndexContext.new name s1 p1 c1 n1 : IndexContext Schema Cfg).id
        = crc32 (strBytes name)
    ∧ (IndexContext.new name s1 p1 c1 n1 : IndexContext Schema Cfg).id < 2 ^ 32
    ∧ (IndexContext.new name s1 p1 c1 n1 : IndexContext Schema Cfg).keyspace
        = INDEX_KEYSPACE_PREFIX ++ "_"
            ++ toString (IndexContext.new name s1 p1 c1 n1 : IndexContext Schema Cfg).id :=
  ⟨rfl, rfl, rfl, rfl, crc32_lt (strBytes name), rfl⟩

/-- C3, counterexample.  With the store for the name `books` already in
the registry, `indexes::new` for the same name is not rejected: it
succeeds, and the registry entry is replaced by the new store. -/
theorem registry_duplicate_insert_accepted :
    registryNew (Registry.insert (Registry.empty : Registry Nat) "books" 1) "books"
        (Except.ok 2 : Except Unit Nat)
      = .ok ((Registry.insert (Registry.empty : Registry Nat) "books" 1).insert "books" 2)
    ∧ ((Registry.insert (Registry.empty : Registry Nat) "books" 1).insert "books" 2) "books"
        = some 2
    ∧ (Registry.insert (Registry.empty : Registry Nat) "books" 1) "books" = some 1
    ∧ (some 2 : Option Nat) ≠ some 1 :=
  ⟨rfl, rfl, rfl, by decide⟩

/-- C3, amended.  Creating an index store under a name already present in
the registry succeeds and replaces the entry (last write wins): the
resulting registry maps the name to the new store and every other name to
its previous value. -/
theorem registry_insert_replaces (Store E : Type) (reg : Registry Store)
    (name : String) (v : Store) (k : String) :
    registryNew reg name (Except.ok v : Except E Store) = .ok (reg.insert name v)
    ∧ (reg.insert name v) k = (if k = name then some v else reg k) :=
  ⟨rfl, rfl⟩

/-- Unfolding lemma for the clause-accumulation loop of
`parse_fuzzy_query`. -/
theorem fuzzyClauses_foldl (search_fields : List Field) (ts : List String)
    (acc : List (Occur × LeafQuery)) :
    ts.foldl (fuzzyClausesStep search_fields) acc
      = acc ++ (ts.filter (fun t => ¬ t = "")).flatMap
          (fun t => search_fields.map
            (fun f => (Occur.should, LeafQuery.fuzzyTerm f t 1 true true))) := by
  induction ts generalizing acc with
  | nil => simp
  | cons t rest ih =>
      by_cases h : t = ""
      · simp [h, fuzzyClausesStep, ih]
      · simp [h, fuzzyClausesStep, ih]

/-- C4, counterexample.  With search fields `title` (text) and `count`
(non-text) — a configuration `build_loaded` accepts — the fuzzy query for
`hello` contains a `Should` clause for the non-text field `count` as
well, contradicting the claim that non-text search fields contribute no
clause. -/
theorem fuzzy_query_includes_nontext_field :
    extractSearchFields cexSchemaC4 ["title", "count"] = .ok [0, 1]
    ∧ cexSchemaC4.kindOf 1 = some .other
    ∧ parse_fuzzy_query [0, 1] "hello"
        = .boolean [(.should, .fuzzyTerm 0 "hello" 1 true true),
                    (.should, .fuzzyTerm 1 "hello" 1 true true)]
    ∧ (.should, LeafQuery.fuzzyTerm 1 "hello" 1 true true)
        ∈ [((.should : Occur), LeafQuery.fuzzyTerm 0 "hello" 1 true true),
           (.should, .fuzzyTerm 1 "hello" 1 true true)] := by
  refine ⟨rfl, rfl, ?_, by decide⟩
  decide

/-- C4, amended.  For every fuzzy-mode query string (this engine has no
fast-fuzzy path), the built backend query lowercases the string, splits
it on the space character, and emits, for each (term, field) pair over
ALL configured search fields — whatever their type — a prefix fuzzy term
query with Levenshtein distance 1, all as `Should` clauses of one boolean
query; empty tokens contribute no clause. -/
theorem fuzzy_query_structure (search_fields : List Field) (query : String) :
    parse_fuzzy_query search_fields query
      = .boolean (((rustLowerSplitSpace query).filter (fun t => ¬ t = "")).flatMap
          (fun t => search_fields.map
            (fun f => (Occur.should, LeafQuery.fuzzyTerm f t 1 true true)))) := by
  unfold parse_fuzzy_query
  rw [fuzzyClauses_foldl]
  simp

/-- C6.  `parse_query` fails with an invalid-query error exactly when the
payload violates its modes requirement (`Normal` or `Fuzzy` without a
query string, `MoreLikeThis` without a reference document); in every
other case it produces a backend query, except that an unparseable
`Normal` query string surfaces the parsers failure. -/
theorem parse_query_invalid_iff (parser : String → Except Unit Nat)
    (search_fields : List Field) (query : Option String)
    (ref_document : Option DocAddress) (mode : QueryMode) :
    ((∃ m, parse_query parser search_fields query ref_document mode
          = .error (.invalidQuery m))
        ↔ ((mode = .normal ∧ query = none) ∨ (mode = .fuzzy ∧ query = none)
            ∨ (mode = .moreLikeThis ∧ ref_document = none)))
    ∧ (parse_query parser search_fields query ref_document mode = .error .parseFailed
        ↔ mode = .normal ∧ ∃ s, query = some s ∧ parser s = .error ())
    ∧ (¬ ((mode = .normal ∧ query = none) ∨ (mode = .fuzzy ∧ query = none)
            ∨ (mode = .moreLikeThis ∧ ref_document = none)) →
        ¬ (mode = .normal ∧ ∃ s, query = some s ∧ parser s = .error ()) →
        ∃ q, parse_query parser search_fields query ref_document mode = .ok q) := by
  cases query with
  | none => cases mode <;> cases ref_document <;> simp [parse_query]
  | some q =>
      cases mode with
      | normal =>
          cases ref_document <;>
            (cases hp : parser q with
              | error u => cases u; simp [parse_query, hp]
              | ok v => simp [parse_query, hp])
      | fuzzy => cases ref_document <;> simp [parse_query]
      | moreLikeThis => cases ref_document <;> simp [parse_query]

/-- C6, witness: a `Normal`-mode payload without a query string is
rejected with an invalid-query error, and a well-formed `Fuzzy` payload
is accepted. -/
theorem parse_query_invalid_iff_witness :
    (∃ m, parse_query (fun _ => .ok 7) [0] none none .normal
        = .error (.invalidQuery m))
    ∧ (∃ q, parse_query (fun _ => .ok 7) [0] (some "rust") none .fuzzy = .ok q) :=
  ⟨(parse_query_invalid_iff (fun _ => .ok 7) [0] none none .normal).1.mpr
      (.inl ⟨rfl, rfl⟩),
   (parse_query_invalid_iff (fun _ => .ok 7) [0] (some "rust") none .fuzzy).2.2
      (by simp) (by simp)⟩

/-- C7.  The writer actor never exits its loop because an individual
operation failed: the operations a wave attempts are exactly the queued
messages up to and including the first `__Shutdown` — independent of
which operations error (errors are logged and processing continues) — and
the wave reports loop exit exactly when a `__Shutdown` message was
received. -/
theorem writer_continues_past_errors (apply : WriterOracle) (msgs : List WriterOp) :
    (process_messages apply msgs).1 = takeUntilShutdown msgs
    ∧ ((process_messages apply msgs).2 = true ↔ WriterOp.shutdown ∈ msgs) := by
  induction msgs with
  | nil => simp [process_messages, takeUntilShutdown]
  | cons op rest ih =>
      cases op with
      | shutdown => simp [process_messages, handle_msg, takeUntilShutdown]
      | commit =>
          cases h : apply .commit <;>
            simp [process_messages, handle_msg, takeUntilShutdown, h, ih]
      | rollback =>
          cases h : apply .rollback <;>
            simp [process_messages, handle_msg, takeUntilShutdown, h, ih]
      | addDocument d =>
          cases h : apply (.addDocument d) <;>
            simp [process_messages, handle_msg, takeUntilShutdown, h, ih]
      | deleteTerm t =>
          cases h : apply (.deleteTerm t) <;>
            simp [process_messages, handle_msg, takeUntilShutdown, h, ih]
      | deleteAll =>
          cases h : apply .deleteAll <;>
            simp [process_messages, handle_msg, takeUntilShutdown, h, ih]

/-- C7, witness: with an oracle that fails every disk operation, a wave
over `[AddDocument 1, Commit]` still attempts both operations and does
not report loop exit; with a `__Shutdown` queued it reports exit. -/
theorem writer_continues_past_errors_witness :
    ((process_messages (fun _ => .error "disk failure")
        [.addDocument 1, .commit]).1
      = takeUntilShutdown [.addDocument 1, .commit]
      ∧ ((process_messages (fun _ => .error "disk failure")
            [.addDocument 1, .commit]).2 = true
          ↔ WriterOp.shutdown ∈ [WriterOp.addDocument 1, .commit]))
    ∧ ((process_messages (fun _ => .error "disk failure")
          [.addDocument 1, .shutdown]).2 = true
        ↔ WriterOp.shutdown ∈ [WriterOp.addDocument 1, .shutdown]) :=
  ⟨writer_continues_past_errors (fun _ => .error "disk failure")
      [.addDocument 1, .commit],
   (writer_continues_past_errors (fun _ => .error "disk failure")
      [.addDocument 1, .shutdown]).2⟩

/-- C5.  The writer admission queue is bounded: the channel is created
with capacity 20; in every reachable state at most 20 operations sit in
the queue; a step that completes an enqueue (the queue grows) is possible
only while the queue is below capacity; and a waiter becomes runnable
(enters `woken`) only through a drain wave of the worker, which first
receives messages and then wakes every registered waiter. -/
theorem writer_backpressure :
    writerChannelCapacity = 20
    ∧ (∀ s, WriterReachable s → s.queue.length ≤ writerChannelCapacity)
    ∧ (∀ s s2, WriterStep s s2 → s.queue.length < s2.queue.length →
        s.queue.length < writerChannelCapacity)
    ∧ (∀ s s2, WriterStep s s2 → ∀ w, w ∈ s2.woken → w ∉ s.woken →
        ∃ take, s2 = ⟨s.queue.drop take, [], s.woken ++ s.waiters⟩) := by
  refine ⟨rfl, ?_, ?_, ?_⟩
  · intro s hs
    induction hs with
    | init => simp [WriterSys.init]
    | step s s2 _ hstep ih =>
        cases hstep with
        | sendOk op h => simpa using h
        | sendFull op w h => simpa using ih
        | retrySendOk op w hw h => simpa using h
        | retrySendFull op w hw h => simpa using ih
        | drainWave take =>
            simp only [List.length_drop]
            omega
  · intro s s2 hstep hgrow
    cases hstep with
    | sendOk op h => exact h
    | sendFull op w h => simp at hgrow
    | retrySendOk op w hw h => exact h
    | retrySendFull op w hw h => simp at hgrow
    | drainWave take =>
        simp only [List.length_drop] at hgrow
        omega
  · intro s s2 hstep w hw hnw
    cases hstep with
    | sendOk op h => exact absurd hw hnw
    | sendFull op w2 h => exact absurd hw hnw
    | retrySendOk op w2 hw2 h =>
        exact absurd (List.mem_of_mem_erase hw) hnw
    | retrySendFull op w2 hw2 h =>
        exact absurd (List.mem_of_mem_erase hw) hnw
    | drainWave take => exact ⟨take, rfl⟩

/-- C5, witness: the capacity is 20; the empty initial queue respects the
bound; a `try_send` against a queue holding 20 operations leaves the
queue unchanged (so cannot have grown it); and a drain wave from a state
with one registered waiter wakes that waiter. -/
theorem writer_backpressure_witness :
    writerChannelCapacity = 20
    ∧ WriterSys.init.queue.length ≤ writerChannelCapacity
    ∧ ((⟨List.replicate 20 .commit, [], []⟩ : WriterSys).queue.length
        < (⟨List.replicate 20 .commit, [0], []⟩ : WriterSys).queue.length →
        (⟨List.replicate 20 .commit, [], []⟩ : WriterSys).queue.length
          < writerChannelCapacity)
    ∧ (∃ take, (⟨[], [], [5]⟩ : WriterSys)
        = ⟨(⟨[], [5], []⟩ : WriterSys).queue.drop take, [],
            (⟨[], [5], []⟩ : WriterSys).woken ++ (⟨[], [5], []⟩ : WriterSys).waiters⟩) :=
  ⟨writer_backpressure.1,
   writer_backpressure.2.1 WriterSys.init .init,
   writer_backpressure.2.2.1 ⟨List.replicate 20 .commit, [], []⟩
      ⟨List.replicate 20 .commit, [0], []⟩
      (WriterStep.sendFull ⟨List.replicate 20 .commit, [], []⟩ .commit 0 (by decide)),
   writer_backpressure.2.2.2 ⟨[], [5], []⟩ ⟨[], [], [5]⟩
      (WriterStep.drainWave ⟨[], [5], []⟩ 0) 5 (by decide) (by decide)⟩

/-- The hit list built by the `search!` macro has exactly one entry per
collected document. -/
theorem buildHits_length (docOf : DocAddress → Except String NamedDoc)
    (top_docs : List (Score × DocAddress)) (hits : List QueryHit)
    (h : buildHits docOf top_docs = .ok hits) : hits.length = top_docs.length := by
  induction top_docs generalizing hits with
  | nil =>
      simp only [buildHits] at h
      cases h
      rfl
  | cons td rest ih =>
      obtain ⟨score, addr⟩ := td
      simp only [buildHits] at h
      cases hd : docOf addr with
      | error e => rw [hd] at h; cases h
      | ok doc =>
          rw [hd] at h
          cases hr : buildHits docOf rest with
          | error e => rw [hr] at h; cases h
          | ok hs =>
              rw [hr] at h
              cases h
              simp [ih hs hr]

/-- In every successful result of the free `search` function, `count`
equals the length of the hit list. -/
theorem search_count_eq_hits_length (matchDocs : List (Score × DocAddress))
    (docOf : DocAddress → Except String NamedDoc) (limit offset : Nat)
    (order_by : Option Field) (elapsed : Score) (r : QueryResults)
    (h : search matchDocs docOf limit offset order_by elapsed = .ok r) :
    r.count = r.hits.length := by
  simp only [search] at h
  cases hb : buildHits docOf (topDocsCollect matchDocs limit offset) with
  | error e => rw [hb] at h; cases h
  | ok hits =>
      rw [hb] at h
      cases h
      exact (buildHits_length docOf _ hits hb).symm

/-- C1.  Evaluating `IndexReaderHandler::search` on an admitted
`Normal`-mode request: the handler reaches `todo!()` and panics instead
of returning the `QueryResults`; the inner `search` result it computed
(and discarded through the oneshot) does satisfy
`count = hits.length`. -/
theorem reader_search_panics_at_todo :
    readerSearch parserEx [0] schemaEx matchDocsEx docOfEx 0 payloadC1
      = .panickedTodo (.ok resultsEx)
    ∧ resultsEx.count = resultsEx.hits.length := by
  refine ⟨?_, rfl⟩
  decide

/-- C2.  Evaluating the search path with `order_by` naming the fast field
`popularity` (present in the schema): the hits come back in score order
`(0,1), (0,0)` although the field values order the documents the other
way (`10 > 5`), so they are not sorted descending by the field; and the
`order_by` argument has no effect at all on the free `search` function —
it is never read. -/
theorem order_by_is_ignored :
    readerSearch parserEx [0] schemaEx matchDocsEx docOfEx 0 payloadC2
      = .panickedTodo (.ok resultsEx)
    ∧ schemaEx.get_field "popularity" = some 3
    ∧ (resultsEx.hits.map QueryHit.ref_address)
        = [refAddressString (0, 1), refAddressString (0, 0)]
    ∧ fastFieldValEx (0, 0) > fastFieldValEx (0, 1)
    ∧ ¬ ([fastFieldValEx (0, 1), fastFieldValEx (0, 0)].Sorted (· ≥ ·))
    ∧ (∀ matchDocs docOf limit offset order_by elapsed,
        search matchDocs docOf limit offset order_by elapsed
          = search matchDocs docOf limit offset none elapsed) := by
  refine ⟨by decide, rfl, by decide, by decide, by decide, fun _ _ _ _ _ _ => rfl⟩

set_option maxRecDepth 8192 in
/-- C8.  Evaluating the on-disk open routines for the index `books` under
`base`: the first `get_or_create_metastore` succeeds and creates the sled
database, but the second open of the same directory — every open after a
restart — fails, because the sled config sets `create_new(true)`;
`get_or_create_index`, by contrast, opens the existing data directory
cleanly both times. -/
theorem metastore_reopen_fails :
    get_or_create_metastore ctxC8 baseC8 ⟨[], []⟩ = .ok fs1C8
    ∧ get_or_create_metastore ctxC8 baseC8 fs1C8
        = .error "sled: database already exists"
    ∧ get_or_create_index ctxC8 (fun n => n) baseC8 fs1C8 = .ok fs2C8
    ∧ get_or_create_index ctxC8 (fun n => n) baseC8 fs2C8 = .ok fs2C8 := by
  refine ⟨?_, ?_, ?_, ?_⟩ <;> decide

/-- The boost entry `createFieldStep` contributes for a search field is
the declared factor when the field is listed in `boost_fields` and `0.0`
otherwise. -/
theorem createFieldStep_boost (schema : TSchema) (correctionEnabled : Bool)
    (ctx : QueryContext) (f : String)
    (out : Field × (Field × Score) × List (Field × Score))
    (h : createFieldStep schema correctionEnabled ctx f = .ok out) :
    out.2.1.2 = (ctx.boost_fields.lookup f).getD 0 := by
  simp only [createFieldStep] at h
  cases h1 : schema.get_field f with
  | none => simp [h1] at h
  | some standard =>
      cases h2 : schema.get_field (shadowFieldName f) with
      | none =>
          simp [h1, h2] at h
          subst h
          rfl
      | some pre =>
          simp only [h1, h2] at h
          cases hb : ctx.use_fast_fuzzy && correctionEnabled <;>
            simp only [hb] at h <;> simp at h <;> subst h <;> rfl

/-- Boost registration along the whole `createLoop`. -/
theorem createLoop_boosts (schema : TSchema) (correctionEnabled : Bool)
    (ctx : QueryContext) (fs : List String) (acc : CreateAcc)
    (h : createLoop schema correctionEnabled ctx fs = .ok acc) :
    acc.parserBoosts.map (fun p => p.2)
      = fs.map (fun f => (ctx.boost_fields.lookup f).getD 0) := by
  induction fs generalizing acc with
  | nil =>
      simp only [createLoop] at h
      cases h
      rfl
  | cons f rest ih =>
      simp only [createLoop] at h
      cases hs : createFieldStep schema correctionEnabled ctx f with
      | error e => rw [hs] at h; cases h
      | ok out =>
          rw [hs] at h
          cases hr : createLoop schema correctionEnabled ctx rest with
          | error e => rw [hr] at h; cases h
          | ok acc2 =>
              rw [hr] at h
              obtain ⟨pf, pb, fz⟩ := out
              cases h
              simpa [ih _ hr] using createFieldStep_boost schema correctionEnabled ctx f _ hs

/-- C10.  When the query handler is constructed, every configured search
field is registered with the query parser with the boost factor declared
for it in `boost_fields`, and with `0.0` when it has no entry there (so
no search field is left at the parser default of `1.0`): the registered
boost list, position by position, is the `boost_fields` lookup with
default `0`. -/
theorem create_registers_zero_boost_default (schema : TSchema)
    (correctionEnabled : Bool) (ctx : QueryContext) (acc : CreateAcc)
    (conjunction : Bool)
    (h : queryHandlerCreate schema correctionEnabled ctx = .ok (acc, conjunction)) :
    acc.parserBoosts.map (fun p => p.2)
      = ctx.search_fields.map (fun f => (ctx.boost_fields.lookup f).getD 0) := by
  simp only [queryHandlerCreate] at h
  cases hl : createLoop schema correctionEnabled ctx ctx.search_fields with
  | error e => rw [hl] at h; cases h
  | ok acc2 =>
      rw [hl] at h
      cases h
      exact createLoop_boosts schema correctionEnabled ctx ctx.search_fields _ hl

/-- C10, witness: on `schemaC10` and `ctxC10` (search fields `title`,
`body`; only `title` boosted, with `3`), the registered boosts are
`[3, 0]` — `body` gets `0.0`, not the parser default. -/
theorem create_registers_zero_boost_default_witness :
    accC10.parserBoosts.map (fun p => p.2)
      = ctxC10.search_fields.map (fun f => (ctxC10.boost_fields.lookup f).getD 0)
    ∧ accC10.parserBoosts.map (fun p => p.2) = [3, 0] :=
  ⟨create_registers_zero_boost_default schemaC10 false ctxC10 accC10 false (by decide),
   by decide⟩

end LnxSpec
